import Mathlib

/-!
# Verification of the breathsmith package-manager invocation subsystem

Shallow embedding of the five package-manager tools of `src/breathsmith.py`
(`uv_command`, `npm_command`, `npx_command`, `yarn_command`, `bun_command`).

The Python functions interact with the outside world only through
* `os.path.exists` / `Path(...).exists()` (filesystem existence checks),
* `os.getcwd()` and `os.path.expanduser("~")`,
* `subprocess.run(argv, cwd=..., capture_output=True, text=True, timeout=...)`.

We model that world as a `World` record of pure oracles.  A call to
`subprocess.run` is a `Spawn` value (argv, optional working directory,
timeout in seconds) mapped by the oracle `World.run` to a `ProcResult`:
normal completion, `subprocess.TimeoutExpired` (which under
`capture_output=True` carries the output produced before the forcible
kill), `FileNotFoundError`, or any other exception (carried as its
message).  Each tool is then a pure function from its Python arguments and
the `World` to the returned report string *and* the ordered trace of all
`subprocess.run` calls it performed, so that "no process is spawned" is
the statement that the trace is empty.
-/

namespace Breathsmith

/-- Outcome of one `subprocess.run` call: normal completion with exit code
and captured streams; `TimeoutExpired` with the partial streams attached to
the exception by `capture_output=True`; `FileNotFoundError`; or any other
exception, carried as its string rendering. -/
inductive ProcResult where
  | completed (returncode : Int) (stdout stderr : String)
  | timedOut (stdout stderr : String)
  | notFound
  | otherError (msg : String)
deriving DecidableEq, Repr

/-- One `subprocess.run` invocation: argument vector, the `cwd=` argument
(`none` when the Python call passes no `cwd`), and the `timeout=` argument
in seconds. -/
structure Spawn where
  argv : List String
  cwd : Option String
  timeoutSec : Nat
deriving DecidableEq, Repr

/-- The ambient world the tools observe: `os.path.exists`, `os.getcwd()`,
the home directory used by `os.path.expanduser`, and the behaviour of
`subprocess.run`. -/
structure World where
  pathExists : String → Bool
  cwd : String
  home : String
  run : Spawn → ProcResult

/-- Model of Python `str.split()` (no separator argument) on a character
list: split on runs of whitespace, discarding empty tokens.  `acc` is the
current token being accumulated, in reverse. -/
def pySplitAux : List Char → List Char → List (List Char)
  | [], acc => if acc = [] then [] else [acc.reverse]
  | c :: cs, acc =>
    if c.isWhitespace then
      if acc = [] then pySplitAux cs [] else acc.reverse :: pySplitAux cs []
    else pySplitAux cs (c :: acc)

/-- Model of Python `str.split()` on a character list. -/
def pySplitChars (cs : List Char) : List (List Char) :=
  pySplitAux cs []

/-- Model of Python `command.split()`: split on runs of whitespace,
no quote interpretation, empty tokens discarded. -/
def pySplit (s : String) : List String :=
  (pySplitChars s.data).map List.asString

/-- Model of Python `str.strip()` (no argument): remove leading and
trailing whitespace. -/
def pyStrip (s : String) : String :=
  List.asString
    (((s.data.dropWhile Char.isWhitespace).reverse.dropWhile Char.isWhitespace).reverse)

/-- Python renders booleans as `True` / `False` inside f-strings. -/
def pyBool (b : Bool) : String :=
  if b then "True" else "False"

/-- Model of `Path(cwd) / name` used only for existence checks. -/
def pathJoin (d f : String) : String := d ++ "/" ++ f

/-- `cwd = directory if directory else os.getcwd()` — Python truthiness:
an empty-string directory falls back to the process working directory. -/
def effCwd (w : World) (directory : Option String) : String :=
  match directory with
  | some d => if d = "" then w.cwd else d
  | none => w.cwd

/-- `if directory and not os.path.exists(directory)` — the validation that
rejects a supplied, non-empty, non-existing target directory. -/
def dirBad (w : World) (directory : Option String) : Bool :=
  match directory with
  | some d => (d != "") && !(w.pathExists d)
  | none => false

/-- `f"Error: Directory '{directory}' does not exist"`. -/
def dirErrMsg (directory : Option String) : String :=
  "Error: Directory '" ++ directory.getD "" ++ "' does not exist"

/-- The two optional report sections shared verbatim by all five tools:
`if result.stdout: ...` / `if result.stderr: ...` append labelled,
stripped stream sections exactly when the raw captured stream is
non-empty. -/
def streamSections (stdout stderr : String) : List String :=
  (if stdout ≠ "" then ["\nSTDOUT:\n" ++ pyStrip stdout] else [])
    ++ (if stderr ≠ "" then ["\nSTDERR:\n" ++ pyStrip stderr] else [])

/-- `output_parts` of `uv_command` (src/breathsmith.py lines 447-456). -/
def uv_output_parts (command cwd : String) (returncode : Int)
    (stdout stderr : String) : List String :=
  ["Command: uv " ++ command, "Directory: " ++ cwd,
   "Exit code: " ++ toString returncode]
    ++ streamSections stdout stderr

/-- `uv_command` (src/breathsmith.py lines 398-465), as a function of the
world; the second component is the trace of `subprocess.run` calls. -/
def uv_command (command : String) (directory : Option String)
    (timeout : Nat) (w : World) : String × List Spawn :=
  if pyStrip command = "" then ("Error: Empty command provided", [])
  else if dirBad w directory then (dirErrMsg directory, [])
  else
    let cwd := effCwd w directory
    let sp : Spawn := ⟨"uv" :: pySplit command, some cwd, timeout⟩
    match w.run sp with
    | .completed rc out err =>
        ("\n".intercalate (uv_output_parts command cwd rc out err), [sp])
    | .timedOut _ _ =>
        ("Error: Command timed out after " ++ toString timeout ++ " seconds", [sp])
    | .notFound => ("Error: 'uv' command not found. Is UV installed?", [sp])
    | .otherError m => ("Error running uv command: " ++ m, [sp])

/-- `output_parts` of `npm_command` (src/breathsmith.py lines 526-536). -/
def npm_output_parts (command cwd : String) (has_package_json : Bool)
    (returncode : Int) (stdout stderr : String) : List String :=
  ["Command: npm " ++ command, "Directory: " ++ cwd,
   "Package.json present: " ++ pyBool has_package_json,
   "Exit code: " ++ toString returncode]
    ++ streamSections stdout stderr

/-- The marker probed by `npm_command`: `Path(cwd) / "package.json"`. -/
def npm_has_package_json (w : World) (cwd : String) : Bool :=
  w.pathExists (pathJoin cwd "package.json")

/-- `npm_command` (src/breathsmith.py lines 467-545). -/
def npm_command (command : String) (directory : Option String)
    (timeout : Nat) (w : World) : String × List Spawn :=
  if pyStrip command = "" then ("Error: Empty command provided", [])
  else if dirBad w directory then (dirErrMsg directory, [])
  else
    let cwd := effCwd w directory
    let has_package_json := npm_has_package_json w cwd
    let sp : Spawn := ⟨"npm" :: pySplit command, some cwd, timeout⟩
    match w.run sp with
    | .completed rc out err =>
        ("\n".intercalate (npm_output_parts command cwd has_package_json rc out err), [sp])
    | .timedOut _ _ =>
        ("Error: Command timed out after " ++ toString timeout ++ " seconds", [sp])
    | .notFound => ("Error: 'npm' command not found. Is Node.js/npm installed?", [sp])
    | .otherError m => ("Error running npm command: " ++ m, [sp])

/-- `output_parts` of `npx_command` (src/breathsmith.py lines 609-620). -/
def npx_output_parts (command cwd : String)
    (has_package_json has_node_modules : Bool)
    (returncode : Int) (stdout stderr : String) : List String :=
  ["Command: npx " ++ command, "Directory: " ++ cwd,
   "Package.json present: " ++ pyBool has_package_json,
   "Node_modules present: " ++ pyBool has_node_modules,
   "Exit code: " ++ toString returncode]
    ++ streamSections stdout stderr

/-- The markers probed by `npx_command`: `package.json` and
`node_modules` directly under the working directory. -/
def npx_markers (w : World) (cwd : String) : Bool × Bool :=
  (w.pathExists (pathJoin cwd "package.json"),
   w.pathExists (pathJoin cwd "node_modules"))

/-- `npx_command` (src/breathsmith.py lines 547-629). -/
def npx_command (command : String) (directory : Option String)
    (timeout : Nat) (w : World) : String × List Spawn :=
  if pyStrip command = "" then ("Error: Empty command provided", [])
  else if dirBad w directory then (dirErrMsg directory, [])
  else
    let cwd := effCwd w directory
    let m := npx_markers w cwd
    let sp : Spawn := ⟨"npx" :: pySplit command, some cwd, timeout⟩
    match w.run sp with
    | .completed rc out err =>
        ("\n".intercalate (npx_output_parts command cwd m.1 m.2 rc out err), [sp])
    | .timedOut _ _ =>
        ("Error: Command timed out after " ++ toString timeout ++ " seconds", [sp])
    | .notFound => ("Error: 'npx' command not found. Is Node.js/npm installed?", [sp])
    | .otherError m => ("Error running npx command: " ++ m, [sp])

/-- The best-effort yarn version probe:
`subprocess.run(["yarn", "--version"], ..., timeout=10)` (no `cwd`). -/
def yarn_version_spawn : Spawn := ⟨["yarn", "--version"], none, 10⟩

/-- src/breathsmith.py lines 695-706: `yarn_version = "unknown"`, then a
probe whose stripped stdout replaces it only on exit code 0; the bare
`except: pass` swallows every failure. -/
def yarn_resolve_version (w : World) : String :=
  match w.run yarn_version_spawn with
  | .completed rc out _ => if rc = 0 then pyStrip out else "unknown"
  | _ => "unknown"

/-- The markers probed by `yarn_command`: `package.json`, `yarn.lock`,
`node_modules` directly under the working directory. -/
def yarn_markers (w : World) (cwd : String) : Bool × Bool × Bool :=
  (w.pathExists (pathJoin cwd "package.json"),
   w.pathExists (pathJoin cwd "yarn.lock"),
   w.pathExists (pathJoin cwd "node_modules"))

/-- `output_parts` of `yarn_command` (src/breathsmith.py lines 717-731);
`command` is the already-stripped command text and the display command is
bare `yarn` when it is empty. -/
def yarn_output_parts (command cwd yarn_version : String)
    (has_package_json has_yarn_lock has_node_modules : Bool)
    (returncode : Int) (stdout stderr : String) : List String :=
  [(if command = "" then "Command: yarn" else "Command: yarn " ++ command),
   "Directory: " ++ cwd,
   "Yarn version: " ++ yarn_version,
   "Package.json present: " ++ pyBool has_package_json,
   "Yarn.lock present: " ++ pyBool has_yarn_lock,
   "Node_modules present: " ++ pyBool has_node_modules,
   "Exit code: " ++ toString returncode]
    ++ streamSections stdout stderr

/-- `yarn_command` (src/breathsmith.py lines 631-740).  Unlike the other
four tools it has no empty-command rejection: the stripped command text is
kept, and an empty command yields the bare `["yarn"]` argument vector
(defaulting to `yarn install`). -/
def yarn_command (command0 : String) (directory : Option String)
    (timeout : Nat) (w : World) : String × List Spawn :=
  let command := pyStrip command0
  let cmd_parts := if command = "" then ["yarn"] else "yarn" :: pySplit command
  if dirBad w directory then (dirErrMsg directory, [])
  else
    let cwd := effCwd w directory
    let m := yarn_markers w cwd
    let yarn_version := yarn_resolve_version w
    let sp : Spawn := ⟨cmd_parts, some cwd, timeout⟩
    match w.run sp with
    | .completed rc out err =>
        ("\n".intercalate
          (yarn_output_parts command cwd yarn_version m.1 m.2.1 m.2.2 rc out err),
         [yarn_version_spawn, sp])
    | .timedOut _ _ =>
        ("Error: Command timed out after " ++ toString timeout ++ " seconds",
         [yarn_version_spawn, sp])
    | .notFound =>
        ("Error: 'yarn' command not found. Is Yarn installed? Install with: npm install -g yarn",
         [yarn_version_spawn, sp])
    | .otherError msg =>
        ("Error running yarn command: " ++ msg, [yarn_version_spawn, sp])

/-- The bun availability probe: `subprocess.run(["bun"], capture_output=True,
timeout=5)` (no `cwd`), run before anything else in `bun_command`. -/
def bun_probe_spawn : Spawn := ⟨["bun"], none, 5⟩

/-- `common_bun_paths` (src/breathsmith.py lines 793-797), with
`os.path.expanduser` resolved against the world's home directory. -/
def common_bun_paths (w : World) : List String :=
  [w.home ++ "/.bun/bin/bun", "/usr/local/bin/bun", "/opt/homebrew/bin/bun"]

/-- The fallback loop (src/breathsmith.py lines 799-802): first existing
path in declared order, else the default name `"bun"`. -/
def bun_fallback (w : World) : String :=
  match (common_bun_paths w).find? w.pathExists with
  | some p => p
  | none => "bun"

/-- Executable resolution of `bun_command` (src/breathsmith.py lines
786-802): probe the default name; on `FileNotFoundError` or
`TimeoutExpired` fall back to `bun_fallback`; on successful start keep
`"bun"`.  Any other exception from the probe escapes to the outer
`except Exception` handler, modelled as the `error` case. -/
def bun_resolve (w : World) : Except String String :=
  match w.run bun_probe_spawn with
  | .notFound => .ok (bun_fallback w)
  | .timedOut _ _ => .ok (bun_fallback w)
  | .completed _ _ _ => .ok "bun"
  | .otherError m => .error m

/-- The version probe of `bun_command` against the resolved executable:
`subprocess.run([bun_executable, "--version"], ..., timeout=10)`. -/
def bun_version_spawn (exe : String) : Spawn := ⟨[exe, "--version"], none, 10⟩

/-- src/breathsmith.py lines 827-838: `bun_version = "unknown"`, replaced
by the stripped stdout only on exit code 0; `except: pass` swallows every
failure. -/
def bun_resolve_version (w : World) (exe : String) : String :=
  match w.run (bun_version_spawn exe) with
  | .completed rc out _ => if rc = 0 then pyStrip out else "unknown"
  | _ => "unknown"

/-- The markers probed by `bun_command`: `package.json`, `bun.lockb`,
`node_modules`, plus the conflicting-lock-file check
`yarn.lock` / `package-lock.json` combined into one boolean. -/
def bun_markers (w : World) (cwd : String) : Bool × Bool × Bool × Bool :=
  (w.pathExists (pathJoin cwd "package.json"),
   w.pathExists (pathJoin cwd "bun.lockb"),
   w.pathExists (pathJoin cwd "node_modules"),
   w.pathExists (pathJoin cwd "yarn.lock")
     || w.pathExists (pathJoin cwd "package-lock.json"))

/-- `output_parts` of `bun_command` (src/breathsmith.py lines 849-864):
the conflicting-lock-file warning line appears only when
`has_other_locks` holds. -/
def bun_output_parts (command cwd bun_version : String)
    (has_package_json has_bun_lockb has_node_modules has_other_locks : Bool)
    (returncode : Int) (stdout stderr : String) : List String :=
  ["Command: bun " ++ command, "Directory: " ++ cwd,
   "Bun version: " ++ bun_version,
   "Package.json present: " ++ pyBool has_package_json,
   "Bun.lockb present: " ++ pyBool has_bun_lockb,
   "Node_modules present: " ++ pyBool has_node_modules]
    ++ (if has_other_locks
        then ["⚠️ Other lock files detected (yarn.lock/package-lock.json)"]
        else [])
    ++ ["Exit code: " ++ toString returncode]
    ++ streamSections stdout stderr

/-- `bun_command` (src/breathsmith.py lines 742-873).  Note the control
flow of the source: the availability probe runs before the directory
validation, so the probe process is spawned even for a non-existent
target directory. -/
def bun_command (command : String) (directory : Option String)
    (timeout : Nat) (w : World) : String × List Spawn :=
  if pyStrip command = "" then ("Error: Empty command provided", [])
  else
    match bun_resolve w with
    | .error m => ("Error running bun command: " ++ m, [bun_probe_spawn])
    | .ok bun_executable =>
      if dirBad w directory then (dirErrMsg directory, [bun_probe_spawn])
      else
        let cwd := effCwd w directory
        let m := bun_markers w cwd
        let bun_version := bun_resolve_version w bun_executable
        let sp : Spawn := ⟨bun_executable :: pySplit command, some cwd, timeout⟩
        match w.run sp with
        | .completed rc out err =>
            ("\n".intercalate
              (bun_output_parts command cwd bun_version m.1 m.2.1 m.2.2.1 m.2.2.2 rc out err),
             [bun_probe_spawn, bun_version_spawn bun_executable, sp])
        | .timedOut _ _ =>
            ("Error: Command timed out after " ++ toString timeout ++ " seconds",
             [bun_probe_spawn, bun_version_spawn bun_executable, sp])
        | .notFound =>
            ("Error: 'bun' command not found. Is Bun installed? Install from: https://bun.sh",
             [bun_probe_spawn, bun_version_spawn bun_executable, sp])
        | .otherError msg =>
            ("Error running bun command: " ++ msg,
             [bun_probe_spawn, bun_version_spawn bun_executable, sp])

/-- Spec-side report template (follows the words of §4.4 of the spec):
a single fixed field ordering shared by all manager families — command
echo, working directory, version line if a version was resolved, one line
per reported marker, an optional conflicting-lock warning, the exit code,
and the labelled stream sections exactly when the raw streams are
non-empty.  Each tool's `output_parts` is proved equal to an instance of
this template, which is what "ordering of fields is fixed and identical
across all five manager families" means. -/
def specAssemble (version_label command_display cwd : String)
    (version : Option String) (markers : List (String × Bool))
    (warn_other_locks : Bool) (returncode : Int)
    (stdout stderr : String) : List String :=
  ["Command: " ++ command_display, "Directory: " ++ cwd]
    ++ (match version with
        | some v => [version_label ++ " version: " ++ v]
        | none => [])
    ++ markers.map (fun m => m.1 ++ " present: " ++ pyBool m.2)
    ++ (if warn_other_locks
        then ["⚠️ Other lock files detected (yarn.lock/package-lock.json)"]
        else [])
    ++ ["Exit code: " ++ toString returncode]
    ++ streamSections stdout stderr

/-! ## Concrete worlds used by witnesses and counterexamples -/

/-- A world with an empty filesystem, working directory `/w`, home
`/home/u`, and every spawned process behaving as `r`. -/
def mkWorld (r : ProcResult) : World :=
  ⟨fun _ => false, "/w", "/home/u", fun _ => r⟩

/-- World where every process completes immediately with exit code 0 and
empty streams. -/
def wRun0 : World := mkWorld (.completed 0 "" "")

/-- World where every process runs past its timeout, having produced the
marker texts `PARTIALOUT` / `PARTIALERR` before being killed. -/
def wTimeoutP : World := mkWorld (.timedOut "PARTIALOUT" "PARTIALERR")

/-- World where every process completes with a newline-terminated stdout. -/
def wOutNl : World := mkWorld (.completed 0 "XYZQ\n" "")

/-- World where no executable can be launched at all. -/
def wNF : World := mkWorld .notFound

/-- World whose filesystem contains exactly `/w/package-lock.json`, with
every process completing with exit code 0 and empty streams. -/
def wLock : World :=
  ⟨fun p => p == "/w/package-lock.json", "/w", "/home/u", fun _ => .completed 0 "" ""⟩

/-! ## Helper lemmas about the whitespace split -/

/-- Every token produced by `pySplitAux` is non-empty and free of
whitespace characters, provided the accumulator is. -/
theorem pySplitAux_tokens : ∀ (cs acc : List Char),
    (∀ c ∈ acc, c.isWhitespace = false) →
    ∀ t ∈ pySplitAux cs acc, t ≠ [] ∧ ∀ c ∈ t, c.isWhitespace = false := by
  intro cs
  induction cs with
  | nil =>
    intro acc hacc t ht
    by_cases h : acc = []
    · simp [pySplitAux, h] at ht
    · simp [pySplitAux, h] at ht
      subst ht
      refine ⟨by simpa using h, ?_⟩
      intro c hc
      exact hacc c (List.mem_reverse.mp hc)
  | cons a cs ih =>
    intro acc hacc t ht
    by_cases ha : a.isWhitespace
    · by_cases h : acc = []
      · simp [pySplitAux, ha, h] at ht
        exact ih [] (by simp) t ht
      · simp [pySplitAux, ha, h] at ht
        rcases ht with rfl | ht
        · refine ⟨by simpa using h, ?_⟩
          intro c hc
          exact hacc c (List.mem_reverse.mp hc)
        · exact ih [] (by simp) t ht
    · simp [pySplitAux, ha] at ht
      refine ih (a :: acc) ?_ t ht
      intro c hc
      rcases List.mem_cons.mp hc with rfl | hc
      · simpa using ha
      · exact hacc c hc

/-- Collapsing lemma: a run of two equal whitespace characters splits the
same way as a single one, whatever the accumulator. -/
theorem pySplitAux_collapse (c : Char) (hc : c.isWhitespace = true) :
    ∀ (l acc r : List Char),
      pySplitAux (l ++ c :: c :: r) acc = pySplitAux (l ++ c :: r) acc := by
  intro l
  induction l with
  | nil =>
    intro acc r
    by_cases hacc : acc = [] <;>
      simp [pySplitAux, hc, hacc]
  | cons a l ih =>
    intro acc r
    by_cases ha : a.isWhitespace <;> by_cases hacc : acc = [] <;>
      simp [pySplitAux, ha, hacc, ih]

/-- C10: for every package-manager tool the child argument list is the
whitespace split of the command text — tokens are non-empty, contain no
whitespace (so quoting is never interpreted), runs of whitespace collapse
into one separator, and the spawned argument vector is the manager name
followed by the split, exhibited here on `uv_command`'s spawn trace. -/
theorem c10_whitespace_split :
    (∀ s : String, ∀ t ∈ pySplit s, t ≠ "" ∧ ∀ c ∈ t.data, c.isWhitespace = false)
    ∧ (∀ (l r : List Char) (c : Char), c.isWhitespace = true →
        pySplitChars (l ++ c :: c :: r) = pySplitChars (l ++ c :: r))
    ∧ (∀ (command : String) (directory : Option String) (timeout : Nat) (w : World),
        pyStrip command ≠ "" → dirBad w directory = false →
        (uv_command command directory timeout w).2 =
          [⟨"uv" :: pySplit command, some (effCwd w directory), timeout⟩]) := by
  refine ⟨?_, ?_, ?_⟩
  · intro s t ht
    simp only [pySplit, List.mem_map] at ht
    obtain ⟨l, hl, rfl⟩ := ht
    have h := pySplitAux_tokens s.data [] (by simp) l hl
    refine ⟨?_, ?_⟩
    · intro hcontra
      exact h.1 (by simpa [List.asString] using congrArg String.data hcontra)
    · intro c hc
      exact h.2 c (by simpa [List.asString] using hc)
  · intro l r c hc
    exact pySplitAux_collapse c hc l [] r
  · intro command directory timeout w h1 h2
    cases hr : w.run ⟨"uv" :: pySplit command, some (effCwd w directory), timeout⟩ with
    | completed rc out err => simp [uv_command, h1, h2, hr]
    | timedOut po pe => simp [uv_command, h1, h2, hr]
    | notFound => simp [uv_command, h1, h2, hr]
    | otherError m => simp [uv_command, h1, h2, hr]

/-- Witness for C10: a concrete command with a doubled separator and no
quote handling; `"add  pkg"` is split into `["add", "pkg"]`. -/
theorem c10_whitespace_split_witness :
    pyStrip "add  pkg" ≠ "" ∧ dirBad wRun0 none = false ∧
      (uv_command "add  pkg" none 60 wRun0).2 =
        [⟨["uv", "add", "pkg"], some "/w", 60⟩] := by
  refine ⟨by decide, by decide, ?_⟩
  rw [(c10_whitespace_split.2.2) "add  pkg" none 60 wRun0 (by decide) (by decide)]
  decide

/-- C9: probing the project state (marker-file booleans and the version
probe) is a pure function of the filesystem- and process-oracles: two
probes against observationally unchanged worlds yield identical values,
for every manager family that probes anything (`uv_command` probes no
state). -/
theorem c9_probe_deterministic :
    ∀ (w w' : World) (cwd : String),
      (∀ p, w.pathExists p = w'.pathExists p) →
      (∀ s, w.run s = w'.run s) →
      npm_has_package_json w cwd = npm_has_package_json w' cwd
      ∧ npx_markers w cwd = npx_markers w' cwd
      ∧ yarn_markers w cwd = yarn_markers w' cwd
      ∧ yarn_resolve_version w = yarn_resolve_version w'
      ∧ bun_markers w cwd = bun_markers w' cwd
      ∧ (∀ exe, bun_resolve_version w exe = bun_resolve_version w' exe) := by
  intro w w' cwd hfs hrun
  refine ⟨?_, ?_, ?_, ?_, ?_, ?_⟩
  · simp [npm_has_package_json, hfs]
  · simp [npx_markers, hfs]
  · simp [yarn_markers, hfs]
  · simp [yarn_resolve_version, hrun]
  · simp [bun_markers, hfs]
  · intro exe
    simp [bun_resolve_version, hrun]

/-- Witness for C9: two syntactically different but observationally equal
worlds probe to the same values. -/
theorem c9_probe_deterministic_witness :
    (∀ p, wRun0.pathExists p = (mkWorld (.completed 0 "" "")).pathExists p)
    ∧ yarn_markers wRun0 "/w" = yarn_markers (mkWorld (.completed 0 "" "")) "/w"
    ∧ yarn_resolve_version wRun0 = yarn_resolve_version (mkWorld (.completed 0 "" "")) := by
  refine ⟨fun p => rfl, ?_, ?_⟩
  · exact (c9_probe_deterministic wRun0 (mkWorld (.completed 0 "" "")) "/w"
      (fun p => rfl) (fun s => rfl)).2.2.1
  · exact (c9_probe_deterministic wRun0 (mkWorld (.completed 0 "" "")) "/w"
      (fun p => rfl) (fun s => rfl)).2.2.2.1

/-- C6: `bun_command`'s executable resolution — when the default-name
probe raises not-found or times out, the fallback paths are consulted
strictly in declared order and the first existing one wins; when none
exists the default name `"bun"` is kept (resolution is a total function,
it never raises), and a subsequent not-found outcome of the main run is
surfaced as the clean not-found report. -/
theorem c6_bun_resolution :
    (∀ w : World,
      (w.run bun_probe_spawn = .notFound
        ∨ ∃ o e, w.run bun_probe_spawn = .timedOut o e) →
      bun_resolve w = .ok (bun_fallback w))
    ∧ (∀ w : World, bun_fallback w =
        (if w.pathExists (w.home ++ "/.bun/bin/bun") then w.home ++ "/.bun/bin/bun"
         else if w.pathExists "/usr/local/bin/bun" then "/usr/local/bin/bun"
         else if w.pathExists "/opt/homebrew/bin/bun" then "/opt/homebrew/bin/bun"
         else "bun"))
    ∧ (∀ (w : World) (command : String) (directory : Option String)
        (timeout : Nat) (exe : String),
        pyStrip command ≠ "" → bun_resolve w = .ok exe →
        dirBad w directory = false →
        w.run ⟨exe :: pySplit command, some (effCwd w directory), timeout⟩ = .notFound →
        (bun_command command directory timeout w).1 =
          "Error: 'bun' command not found. Is Bun installed? Install from: https://bun.sh") := by
  refine ⟨?_, ?_, ?_⟩
  · intro w h
    rcases h with h | ⟨o, e, h⟩ <;> simp [bun_resolve, h]
  · intro w
    by_cases h1 : w.pathExists (w.home ++ "/.bun/bin/bun") <;>
      by_cases h2 : w.pathExists "/usr/local/bin/bun" <;>
        by_cases h3 : w.pathExists "/opt/homebrew/bin/bun" <;>
          simp [bun_fallback, common_bun_paths, List.find?, h1, h2, h3]
  · intro w command directory timeout exe h1 hres h2 hr
    simp [bun_command, h1, hres, h2, hr]

/-- Witness for C6: in a world where nothing can be launched and no
fallback path exists, resolution keeps the default name and the
invocation reports the clean not-found outcome. -/
theorem c6_bun_resolution_witness :
    bun_resolve wNF = .ok "bun"
    ∧ (bun_command "install" none 60 wNF).1 =
        "Error: 'bun' command not found. Is Bun installed? Install from: https://bun.sh" := by
  constructor
  · rw [c6_bun_resolution.1 wNF (Or.inl (by decide))]
    rfl
  · exact c6_bun_resolution.2.2 wNF "install" none 60 "bun"
      (by decide) rfl (by decide) (by decide)

/-- C8: the best-effort version probes of `yarn_command` and `bun_command`
run with a 10-second timeout; any failing probe (missing binary, timeout,
other exception, or non-zero exit) leaves the version as `"unknown"`, and
the overall invocation still performs the main spawn and returns its
report — exhibited by the spawn traces, which always contain the main
command after the version probe. -/
theorem c8_version_probe_best_effort :
    yarn_version_spawn.timeoutSec ≤ 10
    ∧ (∀ exe, (bun_version_spawn exe).timeoutSec ≤ 10)
    ∧ (∀ w : World,
        (∀ out err, w.run yarn_version_spawn ≠ .completed 0 out err) →
        yarn_resolve_version w = "unknown")
    ∧ (∀ (w : World) (exe : String),
        (∀ out err, w.run (bun_version_spawn exe) ≠ .completed 0 out err) →
        bun_resolve_version w exe = "unknown")
    ∧ (∀ (command : String) (directory : Option String) (timeout : Nat) (w : World),
        dirBad w directory = false →
        (yarn_command command directory timeout w).2 =
          [yarn_version_spawn,
           ⟨(if pyStrip command = "" then ["yarn"] else "yarn" :: pySplit (pyStrip command)),
            some (effCwd w directory), timeout⟩])
    ∧ (∀ (command : String) (directory : Option String) (timeout : Nat)
        (w : World) (exe : String),
        pyStrip command ≠ "" → bun_resolve w = .ok exe →
        dirBad w directory = false →
        (bun_command command directory timeout w).2 =
          [bun_probe_spawn, bun_version_spawn exe,
           ⟨exe :: pySplit command, some (effCwd w directory), timeout⟩]) := by
  refine ⟨by decide, by intro exe; exact Nat.le_refl 10, ?_, ?_, ?_, ?_⟩
  · intro w h
    cases hr : w.run yarn_version_spawn with
    | completed rc out err =>
      have hrc : rc ≠ 0 := by
        intro hrc0
        exact h out err (by rw [hr, hrc0])
      simp [yarn_resolve_version, hr, hrc]
    | timedOut o e => simp [yarn_resolve_version, hr]
    | notFound => simp [yarn_resolve_version, hr]
    | otherError m => simp [yarn_resolve_version, hr]
  · intro w exe h
    cases hr : w.run (bun_version_spawn exe) with
    | completed rc out err =>
      have hrc : rc ≠ 0 := by
        intro hrc0
        exact h out err (by rw [hr, hrc0])
      simp [bun_resolve_version, hr, hrc]
    | timedOut o e => simp [bun_resolve_version, hr]
    | notFound => simp [bun_resolve_version, hr]
    | otherError m => simp [bun_resolve_version, hr]
  · intro command directory timeout w h2
    cases hr : w.run ⟨(if pyStrip command = "" then ["yarn"]
        else "yarn" :: pySplit (pyStrip command)), some (effCwd w directory), timeout⟩ with
    | completed rc out err => simp [yarn_command, h2, hr]
    | timedOut o e => simp [yarn_command, h2, hr]
    | notFound => simp [yarn_command, h2, hr]
    | otherError m => simp [yarn_command, h2, hr]
  · intro command directory timeout w exe h1 hres h2
    cases hr : w.run ⟨exe :: pySplit command, some (effCwd w directory), timeout⟩ with
    | completed rc out err => simp [bun_command, h1, hres, h2, hr]
    | timedOut o e => simp [bun_command, h1, hres, h2, hr]
    | notFound => simp [bun_command, h1, hres, h2, hr]
    | otherError m => simp [bun_command, h1, hres, h2, hr]

/-- Witness for C8: in a world where no binary exists at all, the yarn
version probe fails, the version is reported `"unknown"`, and the main
command is still spawned. -/
theorem c8_version_probe_best_effort_witness :
    yarn_resolve_version wNF = "unknown"
    ∧ (yarn_command "info" none 60 wNF).2 =
        [yarn_version_spawn, ⟨["yarn", "info"], some "/w", 60⟩] := by
  constructor
  · exact c8_version_probe_best_effort.2.2.1 wNF
      (by intro out err h; simp [wNF, mkWorld] at h)
  · rw [c8_version_probe_best_effort.2.2.2.2.1 "info" none 60 wNF (by decide)]
    decide

/-- Counterexample to C2 as stated: `yarn_command` does NOT reject an
empty command.  With an empty command text it spawns both its version
probe and a bare `yarn` child process (defaulting to `yarn install`) and
returns a normal report rather than the validation-failure report. -/
theorem c2_counterexample :
    yarn_command "" none 60 wRun0 =
      ("Command: yarn\nDirectory: /w\nYarn version: \nPackage.json present: False\nYarn.lock present: False\nNode_modules present: False\nExit code: 0",
       [yarn_version_spawn, ⟨["yarn"], some "/w", 60⟩])
    ∧ (yarn_command "" none 60 wRun0).2 ≠ []
    ∧ (yarn_command "" none 60 wRun0).1 ≠ "Error: Empty command provided" := by
  refine ⟨by decide, by decide, by decide⟩

/-- C2 amended: `uv_command`, `npm_command`, `npx_command` and
`bun_command` reject a command that is empty after stripping with the
validation-failure report `Error: Empty command provided` and spawn no
process; `yarn_command` instead turns the empty command into a bare
`yarn` invocation (defaulting to install) and does spawn processes. -/
theorem c2_empty_command_validation :
    (∀ (command : String) (directory : Option String) (timeout : Nat) (w : World),
      pyStrip command = "" →
      uv_command command directory timeout w = ("Error: Empty command provided", []))
    ∧ (∀ (command : String) (directory : Option String) (timeout : Nat) (w : World),
      pyStrip command = "" →
      npm_command command directory timeout w = ("Error: Empty command provided", []))
    ∧ (∀ (command : String) (directory : Option String) (timeout : Nat) (w : World),
      pyStrip command = "" →
      npx_command command directory timeout w = ("Error: Empty command provided", []))
    ∧ (∀ (command : String) (directory : Option String) (timeout : Nat) (w : World),
      pyStrip command = "" →
      bun_command command directory timeout w = ("Error: Empty command provided", []))
    ∧ (∀ (command : String) (directory : Option String) (timeout : Nat) (w : World),
      pyStrip command = "" → dirBad w directory = false →
      (yarn_command command directory timeout w).2 =
        [yarn_version_spawn, ⟨["yarn"], some (effCwd w directory), timeout⟩]) := by
  refine ⟨?_, ?_, ?_, ?_, ?_⟩
  · intro command directory timeout w h
    simp [uv_command, h]
  · intro command directory timeout w h
    simp [npm_command, h]
  · intro command directory timeout w h
    simp [npx_command, h]
  · intro command directory timeout w h
    simp [bun_command, h]
  · intro command directory timeout w h h2
    cases hr : w.run ⟨["yarn"], some (effCwd w directory), timeout⟩ with
    | completed rc out err => simp [yarn_command, h, h2, hr]
    | timedOut o e => simp [yarn_command, h, h2, hr]
    | notFound => simp [yarn_command, h, h2, hr]
    | otherError m => simp [yarn_command, h, h2, hr]

/-- Witness for the amended C2: a whitespace-only command is rejected by
`uv_command` with no spawn, while `yarn_command` spawns the bare `yarn`
process. -/
theorem c2_empty_command_validation_witness :
    pyStrip "   " = ""
    ∧ uv_command "   " (some "/x") 5 wRun0 = ("Error: Empty command provided", [])
    ∧ (yarn_command "   " none 60 wRun0).2 =
        [yarn_version_spawn, ⟨["yarn"], some "/w", 60⟩] := by
  refine ⟨by decide, c2_empty_command_validation.1 "   " (some "/x") 5 wRun0 (by decide), ?_⟩
  rw [c2_empty_command_validation.2.2.2.2 "   " none 60 wRun0 (by decide) (by decide)]
  decide

/-- Counterexample to C3 as stated: `bun_command` spawns its availability
probe process before validating the target directory, so with a
non-existent directory a child process has already been spawned when the
validation-failure report is returned. -/
theorem c3_counterexample :
    bun_command "install" (some "/nope") 60 wRun0 =
      ("Error: Directory '/nope' does not exist", [bun_probe_spawn])
    ∧ (bun_command "install" (some "/nope") 60 wRun0).2 ≠ [] := by
  refine ⟨by decide, by decide⟩

/-- C3 amended: `uv_command`, `npm_command`, `npx_command` and
`yarn_command` reject a supplied non-existent directory with the
validation-failure report and spawn nothing; `bun_command` returns the
same validation-failure report, but its executable-resolution probe has
already been spawned before the directory check. -/
theorem c3_missing_directory_validation :
    (∀ (command dname : String) (timeout : Nat) (w : World),
      pyStrip command ≠ "" → dname ≠ "" → w.pathExists dname = false →
      uv_command command (some dname) timeout w =
        ("Error: Directory '" ++ dname ++ "' does not exist", []))
    ∧ (∀ (command dname : String) (timeout : Nat) (w : World),
      pyStrip command ≠ "" → dname ≠ "" → w.pathExists dname = false →
      npm_command command (some dname) timeout w =
        ("Error: Directory '" ++ dname ++ "' does not exist", []))
    ∧ (∀ (command dname : String) (timeout : Nat) (w : World),
      pyStrip command ≠ "" → dname ≠ "" → w.pathExists dname = false →
      npx_command command (some dname) timeout w =
        ("Error: Directory '" ++ dname ++ "' does not exist", []))
    ∧ (∀ (command dname : String) (timeout : Nat) (w : World),
      dname ≠ "" → w.pathExists dname = false →
      yarn_command command (some dname) timeout w =
        ("Error: Directory '" ++ dname ++ "' does not exist", []))
    ∧ (∀ (command dname : String) (timeout : Nat) (w : World) (exe : String),
      pyStrip command ≠ "" → bun_resolve w = .ok exe →
      dname ≠ "" → w.pathExists dname = false →
      bun_command command (some dname) timeout w =
        ("Error: Directory '" ++ dname ++ "' does not exist", [bun_probe_spawn])) := by
  have hbad : ∀ (w : World) (dname : String), dname ≠ "" →
      w.pathExists dname = false → dirBad w (some dname) = true := by
    intro w dname hd hp
    simp [dirBad, hp, hd]
  refine ⟨?_, ?_, ?_, ?_, ?_⟩
  · intro command dname timeout w h1 hd hp
    simp [uv_command, h1, hbad w dname hd hp, dirErrMsg]
  · intro command dname timeout w h1 hd hp
    simp [npm_command, h1, hbad w dname hd hp, dirErrMsg]
  · intro command dname timeout w h1 hd hp
    simp [npx_command, h1, hbad w dname hd hp, dirErrMsg]
  · intro command dname timeout w hd hp
    simp [yarn_command, hbad w dname hd hp, dirErrMsg]
  · intro command dname timeout w exe h1 hres hd hp
    simp [bun_command, h1, hres, hbad w dname hd hp, dirErrMsg]

/-- Witness for the amended C3: a missing directory is rejected by
`uv_command` with an empty spawn trace, and by `bun_command` with the
probe already in the trace. -/
theorem c3_missing_directory_validation_witness :
    pyStrip "sync" ≠ "" ∧ wRun0.pathExists "/nope" = false
    ∧ uv_command "sync" (some "/nope") 60 wRun0 =
        ("Error: Directory '/nope' does not exist", [])
    ∧ bun_command "install" (some "/nope") 60 wRun0 =
        ("Error: Directory '/nope' does not exist", [bun_probe_spawn]) := by
  refine ⟨by decide, by decide, ?_, ?_⟩
  · exact c3_missing_directory_validation.1 "sync" "/nope" 60 wRun0
      (by decide) (by decide) (by decide)
  · exact c3_missing_directory_validation.2.2.2.2 "install" "/nope" 60 wRun0 "bun"
      (by decide) rfl (by decide) (by decide)

/-- Counterexample to C1 as stated: when the child times out, the tools
return only the fixed timeout message; the standard output and standard
error produced before the forcible kill (carried by `TimeoutExpired`
under `capture_output=True`) are NOT preserved in the report. -/
theorem c1_counterexample :
    wTimeoutP.run ⟨["uv", "sync"], some "/w", 60⟩ =
      .timedOut "PARTIALOUT" "PARTIALERR"
    ∧ (uv_command "sync" none 60 wTimeoutP).1 =
        "Error: Command timed out after 60 seconds"
    ∧ ¬ ("PARTIALOUT".data <:+: (uv_command "sync" none 60 wTimeoutP).1.data)
    ∧ ¬ ("PARTIALERR".data <:+: (uv_command "sync" none 60 wTimeoutP).1.data) := by
  refine ⟨by decide, by decide, by decide, by decide⟩

/-- C1 amended: when the child process is still running at the timeout,
every one of the five tools returns the fixed report
`Error: Command timed out after N seconds` — a timed-out outcome carrying
no exit code — and the partial standard output and standard error are
discarded, not preserved; the trace shows the child was spawned. -/
theorem c1_timeout_report :
    (∀ (command : String) (directory : Option String) (timeout : Nat)
      (w : World) (po pe : String),
      pyStrip command ≠ "" → dirBad w directory = false →
      w.run ⟨"uv" :: pySplit command, some (effCwd w directory), timeout⟩ = .timedOut po pe →
      uv_command command directory timeout w =
        ("Error: Command timed out after " ++ toString timeout ++ " seconds",
         [⟨"uv" :: pySplit command, some (effCwd w directory), timeout⟩]))
    ∧ (∀ (command : String) (directory : Option String) (timeout : Nat)
      (w : World) (po pe : String),
      pyStrip command ≠ "" → dirBad w directory = false →
      w.run ⟨"npm" :: pySplit command, some (effCwd w directory), timeout⟩ = .timedOut po pe →
      npm_command command directory timeout w =
        ("Error: Command timed out after " ++ toString timeout ++ " seconds",
         [⟨"npm" :: pySplit command, some (effCwd w directory), timeout⟩]))
    ∧ (∀ (command : String) (directory : Option String) (timeout : Nat)
      (w : World) (po pe : String),
      pyStrip command ≠ "" → dirBad w directory = false →
      w.run ⟨"npx" :: pySplit command, some (effCwd w directory), timeout⟩ = .timedOut po pe →
      npx_command command directory timeout w =
        ("Error: Command timed out after " ++ toString timeout ++ " seconds",
         [⟨"npx" :: pySplit command, some (effCwd w directory), timeout⟩]))
    ∧ (∀ (command : String) (directory : Option String) (timeout : Nat)
      (w : World) (po pe : String),
      dirBad w directory = false →
      w.run ⟨(if pyStrip command = "" then ["yarn"] else "yarn" :: pySplit (pyStrip command)),
             some (effCwd w directory), timeout⟩ = .timedOut po pe →
      yarn_command command directory timeout w =
        ("Error: Command timed out after " ++ toString timeout ++ " seconds",
         [yarn_version_spawn,
          ⟨(if pyStrip command = "" then ["yarn"] else "yarn" :: pySplit (pyStrip command)),
           some (effCwd w directory), timeout⟩]))
    ∧ (∀ (command : String) (directory : Option String) (timeout : Nat)
      (w : World) (exe po pe : String),
      pyStrip command ≠ "" → bun_resolve w = .ok exe → dirBad w directory = false →
      w.run ⟨exe :: pySplit command, some (effCwd w directory), timeout⟩ = .timedOut po pe →
      bun_command command directory timeout w =
        ("Error: Command timed out after " ++ toString timeout ++ " seconds",
         [bun_probe_spawn, bun_version_spawn exe,
          ⟨exe :: pySplit command, some (effCwd w directory), timeout⟩])) := by
  refine ⟨?_, ?_, ?_, ?_, ?_⟩
  · intro command directory timeout w po pe h1 h2 hr
    simp [uv_command, h1, h2, hr]
  · intro command directory timeout w po pe h1 h2 hr
    simp [npm_command, h1, h2, hr]
  · intro command directory timeout w po pe h1 h2 hr
    simp [npx_command, h1, h2, hr]
  · intro command directory timeout w po pe h2 hr
    simp [yarn_command, h2, hr]
  · intro command directory timeout w exe po pe h1 hres h2 hr
    simp [bun_command, h1, hres, h2, hr]

/-- Witness for the amended C1: a concrete timed-out uv invocation yields
exactly the fixed timeout report. -/
theorem c1_timeout_report_witness :
    pyStrip "sync" ≠ "" ∧ dirBad wTimeoutP none = false
    ∧ uv_command "sync" none 60 wTimeoutP =
        ("Error: Command timed out after 60 seconds",
         [⟨["uv", "sync"], some "/w", 60⟩]) := by
  refine ⟨by decide, by decide, ?_⟩
  have h := c1_timeout_report.1 "sync" none 60 wTimeoutP "PARTIALOUT" "PARTIALERR"
    (by decide) (by decide) (by decide)
  rw [h]
  decide

/-- Counterexample to C4 as stated: for a process that completes with
stdout `"XYZQ\n"`, the report carries the stripped text `XYZQ`, so the
captured standard output is not reproduced exactly equal to what the
process wrote. -/
theorem c4_counterexample :
    wOutNl.run ⟨["uv", "x"], some "/w", 60⟩ = .completed 0 "XYZQ\n" ""
    ∧ (uv_command "x" none 60 wOutNl).1 =
        "Command: uv x\nDirectory: /w\nExit code: 0\n\nSTDOUT:\nXYZQ"
    ∧ ¬ ("XYZQ\n".data <:+: (uv_command "x" none 60 wOutNl).1.data) := by
  refine ⟨by decide, by decide, by decide⟩

/-- C4 amended: when the child exits within the timeout, the report is the
joined `output_parts`, which always carry the process's exact exit code;
the captured streams are included in full, but with leading and trailing
whitespace stripped (Python `.strip()`), and each labelled section appears
only when the raw captured stream is non-empty. -/
theorem c4_completed_report :
    (∀ (command : String) (directory : Option String) (timeout : Nat)
      (w : World) (rc : Int) (out err : String),
      pyStrip command ≠ "" → dirBad w directory = false →
      w.run ⟨"uv" :: pySplit command, some (effCwd w directory), timeout⟩ =
        .completed rc out err →
      (uv_command command directory timeout w).1 =
        "\n".intercalate (uv_output_parts command (effCwd w directory) rc out err))
    ∧ (∀ (command : String) (directory : Option String) (timeout : Nat)
      (w : World) (rc : Int) (out err : String),
      pyStrip command ≠ "" → dirBad w directory = false →
      w.run ⟨"npm" :: pySplit command, some (effCwd w directory), timeout⟩ =
        .completed rc out err →
      (npm_command command directory timeout w).1 =
        "\n".intercalate (npm_output_parts command (effCwd w directory)
          (npm_has_package_json w (effCwd w directory)) rc out err))
    ∧ (∀ (command : String) (directory : Option String) (timeout : Nat)
      (w : World) (rc : Int) (out err : String),
      pyStrip command ≠ "" → dirBad w directory = false →
      w.run ⟨"npx" :: pySplit command, some (effCwd w directory), timeout⟩ =
        .completed rc out err →
      (npx_command command directory timeout w).1 =
        "\n".intercalate (npx_output_parts command (effCwd w directory)
          (npx_markers w (effCwd w directory)).1
          (npx_markers w (effCwd w directory)).2 rc out err))
    ∧ (∀ (command : String) (directory : Option String) (timeout : Nat)
      (w : World) (rc : Int) (out err : String),
      dirBad w directory = false →
      w.run ⟨(if pyStrip command = "" then ["yarn"] else "yarn" :: pySplit (pyStrip command)),
             some (effCwd w directory), timeout⟩ = .completed rc out err →
      (yarn_command command directory timeout w).1 =
        "\n".intercalate (yarn_output_parts (pyStrip command) (effCwd w directory)
          (yarn_resolve_version w)
          (yarn_markers w (effCwd w directory)).1
          (yarn_markers w (effCwd w directory)).2.1
          (yarn_markers w (effCwd w directory)).2.2 rc out err))
    ∧ (∀ (command : String) (directory : Option String) (timeout : Nat)
      (w : World) (exe : String) (rc : Int) (out err : String),
      pyStrip command ≠ "" → bun_resolve w = .ok exe → dirBad w directory = false →
      w.run ⟨exe :: pySplit command, some (effCwd w directory), timeout⟩ =
        .completed rc out err →
      (bun_command command directory timeout w).1 =
        "\n".intercalate (bun_output_parts command (effCwd w directory)
          (bun_resolve_version w exe)
          (bun_markers w (effCwd w directory)).1
          (bun_markers w (effCwd w directory)).2.1
          (bun_markers w (effCwd w directory)).2.2.1
          (bun_markers w (effCwd w directory)).2.2.2 rc out err))
    ∧ (∀ (command cwd : String) (rc : Int) (out err : String),
      ("Exit code: " ++ toString rc) ∈ uv_output_parts command cwd rc out err
      ∧ (out ≠ "" → ("\nSTDOUT:\n" ++ pyStrip out) ∈ uv_output_parts command cwd rc out err)
      ∧ (err ≠ "" → ("\nSTDERR:\n" ++ pyStrip err) ∈ uv_output_parts command cwd rc out err)
      ∧ (out = "" → err = "" →
          uv_output_parts command cwd rc out err =
            ["Command: uv " ++ command, "Directory: " ++ cwd,
             "Exit code: " ++ toString rc])) := by
  refine ⟨?_, ?_, ?_, ?_, ?_, ?_⟩
  · intro command directory timeout w rc out err h1 h2 hr
    simp [uv_command, h1, h2, hr]
  · intro command directory timeout w rc out err h1 h2 hr
    simp [npm_command, h1, h2, hr]
  · intro command directory timeout w rc out err h1 h2 hr
    simp [npx_command, h1, h2, hr]
  · intro command directory timeout w rc out err h2 hr
    simp [yarn_command, h2, hr]
  · intro command directory timeout w exe rc out err h1 hres h2 hr
    simp [bun_command, h1, hres, h2, hr]
  · intro command cwd rc out err
    refine ⟨?_, ?_, ?_, ?_⟩
    · simp [uv_output_parts, streamSections]
    · intro hout
      simp [uv_output_parts, streamSections, hout]
    · intro herr
      simp [uv_output_parts, streamSections, herr]
    · intro hout herr
      simp [uv_output_parts, streamSections, hout, herr]

/-- Witness for the amended C4: a concrete completed invocation whose
report shows the exact exit code and the stripped stdout section. -/
theorem c4_completed_report_witness :
    pyStrip "x" ≠ "" ∧ dirBad wOutNl none = false
    ∧ (uv_command "x" none 60 wOutNl).1 =
        "Command: uv x\nDirectory: /w\nExit code: 0\n\nSTDOUT:\nXYZQ" := by
  refine ⟨by decide, by decide, ?_⟩
  have h := c4_completed_report.1 "x" none 60 wOutNl 0 "XYZQ\n" ""
    (by decide) (by decide) (by decide)
  rw [h]
  decide

/-- C5: each tool is a total function into report strings — every world
outcome of the spawned processes (completion with any exit code, timeout,
missing executable, or any other exception) is mapped to one of the
finitely many report shapes, never an uncaught exception (exceptions are
the `timedOut` / `notFound` / `otherError` oracle outcomes, all handled).
Stated here as an exhaustive shape enumeration for all five tools. -/
theorem c5_always_returns_report :
    (∀ (c : String) (d : Option String) (t : Nat) (w : World),
      (uv_command c d t w).1 = "Error: Empty command provided"
      ∨ (∃ dn, (uv_command c d t w).1 = "Error: Directory '" ++ dn ++ "' does not exist")
      ∨ (∃ rc out err, (uv_command c d t w).1 =
          "\n".intercalate (uv_output_parts c (effCwd w d) rc out err))
      ∨ (uv_command c d t w).1 = "Error: Command timed out after " ++ toString t ++ " seconds"
      ∨ (uv_command c d t w).1 = "Error: 'uv' command not found. Is UV installed?"
      ∨ (∃ m, (uv_command c d t w).1 = "Error running uv command: " ++ m))
    ∧ (∀ (c : String) (d : Option String) (t : Nat) (w : World),
      (npm_command c d t w).1 = "Error: Empty command provided"
      ∨ (∃ dn, (npm_command c d t w).1 = "Error: Directory '" ++ dn ++ "' does not exist")
      ∨ (∃ rc out err, (npm_command c d t w).1 =
          "\n".intercalate (npm_output_parts c (effCwd w d)
            (npm_has_package_json w (effCwd w d)) rc out err))
      ∨ (npm_command c d t w).1 = "Error: Command timed out after " ++ toString t ++ " seconds"
      ∨ (npm_command c d t w).1 = "Error: 'npm' command not found. Is Node.js/npm installed?"
      ∨ (∃ m, (npm_command c d t w).1 = "Error running npm command: " ++ m))
    ∧ (∀ (c : String) (d : Option String) (t : Nat) (w : World),
      (npx_command c d t w).1 = "Error: Empty command provided"
      ∨ (∃ dn, (npx_command c d t w).1 = "Error: Directory '" ++ dn ++ "' does not exist")
      ∨ (∃ rc out err, (npx_command c d t w).1 =
          "\n".intercalate (npx_output_parts c (effCwd w d)
            (npx_markers w (effCwd w d)).1 (npx_markers w (effCwd w d)).2 rc out err))
      ∨ (npx_command c d t w).1 = "Error: Command timed out after " ++ toString t ++ " seconds"
      ∨ (npx_command c d t w).1 = "Error: 'npx' command not found. Is Node.js/npm installed?"
      ∨ (∃ m, (npx_command c d t w).1 = "Error running npx command: " ++ m))
    ∧ (∀ (c : String) (d : Option String) (t : Nat) (w : World),
      (∃ dn, (yarn_command c d t w).1 = "Error: Directory '" ++ dn ++ "' does not exist")
      ∨ (∃ rc out err, (yarn_command c d t w).1 =
          "\n".intercalate (yarn_output_parts (pyStrip c) (effCwd w d)
            (yarn_resolve_version w)
            (yarn_markers w (effCwd w d)).1 (yarn_markers w (effCwd w d)).2.1
            (yarn_markers w (effCwd w d)).2.2 rc out err))
      ∨ (yarn_command c d t w).1 = "Error: Command timed out after " ++ toString t ++ " seconds"
      ∨ (yarn_command c d t w).1 =
          "Error: 'yarn' command not found. Is Yarn installed? Install with: npm install -g yarn"
      ∨ (∃ m, (yarn_command c d t w).1 = "Error running yarn command: " ++ m))
    ∧ (∀ (c : String) (d : Option String) (t : Nat) (w : World),
      (bun_command c d t w).1 = "Error: Empty command provided"
      ∨ (∃ dn, (bun_command c d t w).1 = "Error: Directory '" ++ dn ++ "' does not exist")
      ∨ (∃ exe rc out err, (bun_command c d t w).1 =
          "\n".intercalate (bun_output_parts c (effCwd w d)
            (bun_resolve_version w exe)
            (bun_markers w (effCwd w d)).1 (bun_markers w (effCwd w d)).2.1
            (bun_markers w (effCwd w d)).2.2.1 (bun_markers w (effCwd w d)).2.2.2 rc out err))
      ∨ (bun_command c d t w).1 = "Error: Command timed out after " ++ toString t ++ " seconds"
      ∨ (bun_command c d t w).1 =
          "Error: 'bun' command not found. Is Bun installed? Install from: https://bun.sh"
      ∨ (∃ m, (bun_command c d t w).1 = "Error running bun command: " ++ m)) := by
  refine ⟨?_, ?_, ?_, ?_, ?_⟩
  · intro c d t w
    by_cases h1 : pyStrip c = ""
    · exact Or.inl (by simp [uv_command, h1])
    · cases h2 : dirBad w d with
      | true =>
        exact Or.inr (Or.inl ⟨d.getD "", by simp [uv_command, h1, h2, dirErrMsg]⟩)
      | false =>
        cases hr : w.run ⟨"uv" :: pySplit c, some (effCwd w d), t⟩ with
        | completed rc out err =>
          exact Or.inr (Or.inr (Or.inl ⟨rc, out, err, by simp [uv_command, h1, h2, hr]⟩))
        | timedOut po pe =>
          exact Or.inr (Or.inr (Or.inr (Or.inl (by simp [uv_command, h1, h2, hr]))))
        | notFound =>
          exact Or.inr (Or.inr (Or.inr (Or.inr (Or.inl (by simp [uv_command, h1, h2, hr])))))
        | otherError m =>
          exact Or.inr (Or.inr (Or.inr (Or.inr (Or.inr ⟨m, by simp [uv_command, h1, h2, hr]⟩))))
  · intro c d t w
    by_cases h1 : pyStrip c = ""
    · exact Or.inl (by simp [npm_command, h1])
    · cases h2 : dirBad w d with
      | true =>
        exact Or.inr (Or.inl ⟨d.getD "", by simp [npm_command, h1, h2, dirErrMsg]⟩)
      | false =>
        cases hr : w.run ⟨"npm" :: pySplit c, some (effCwd w d), t⟩ with
        | completed rc out err =>
          exact Or.inr (Or.inr (Or.inl ⟨rc, out, err, by simp [npm_command, h1, h2, hr]⟩))
        | timedOut po pe =>
          exact Or.inr (Or.inr (Or.inr (Or.inl (by simp [npm_command, h1, h2, hr]))))
        | notFound =>
          exact Or.inr (Or.inr (Or.inr (Or.inr (Or.inl (by simp [npm_command, h1, h2, hr])))))
        | otherError m =>
          exact Or.inr (Or.inr (Or.inr (Or.inr (Or.inr ⟨m, by simp [npm_command, h1, h2, hr]⟩))))
  · intro c d t w
    by_cases h1 : pyStrip c = ""
    · exact Or.inl (by simp [npx_command, h1])
    · cases h2 : dirBad w d with
      | true =>
        exact Or.inr (Or.inl ⟨d.getD "", by simp [npx_command, h1, h2, dirErrMsg]⟩)
      | false =>
        cases hr : w.run ⟨"npx" :: pySplit c, some (effCwd w d), t⟩ with
        | completed rc out err =>
          exact Or.inr (Or.inr (Or.inl ⟨rc, out, err, by simp [npx_command, h1, h2, hr]⟩))
        | timedOut po pe =>
          exact Or.inr (Or.inr (Or.inr (Or.inl (by simp [npx_command, h1, h2, hr]))))
        | notFound =>
          exact Or.inr (Or.inr (Or.inr (Or.inr (Or.inl (by simp [npx_command, h1, h2, hr])))))
        | otherError m =>
          exact Or.inr (Or.inr (Or.inr (Or.inr (Or.inr ⟨m, by simp [npx_command, h1, h2, hr]⟩))))
  · intro c d t w
    cases h2 : dirBad w d with
    | true =>
      exact Or.inl ⟨d.getD "", by simp [yarn_command, h2, dirErrMsg]⟩
    | false =>
      cases hr : w.run ⟨(if pyStrip c = "" then ["yarn"] else "yarn" :: pySplit (pyStrip c)),
          some (effCwd w d), t⟩ with
      | completed rc out err =>
        exact Or.inr (Or.inl ⟨rc, out, err, by simp [yarn_command, h2, hr]⟩)
      | timedOut po pe =>
        exact Or.inr (Or.inr (Or.inl (by simp [yarn_command, h2, hr])))
      | notFound =>
        exact Or.inr (Or.inr (Or.inr (Or.inl (by simp [yarn_command, h2, hr]))))
      | otherError m =>
        exact Or.inr (Or.inr (Or.inr (Or.inr ⟨m, by simp [yarn_command, h2, hr]⟩)))
  · intro c d t w
    by_cases h1 : pyStrip c = ""
    · exact Or.inl (by simp [bun_command, h1])
    · cases hres : bun_resolve w with
      | error m =>
        exact Or.inr (Or.inr (Or.inr (Or.inr (Or.inr ⟨m, by simp [bun_command, h1, hres]⟩))))
      | ok exe =>
        cases h2 : dirBad w d with
        | true =>
          exact Or.inr (Or.inl ⟨d.getD "", by simp [bun_command, h1, hres, h2, dirErrMsg]⟩)
        | false =>
          cases hr : w.run ⟨exe :: pySplit c, some (effCwd w d), t⟩ with
          | completed rc out err =>
            exact Or.inr (Or.inr (Or.inl ⟨exe, rc, out, err,
              by simp [bun_command, h1, hres, h2, hr]⟩))
          | timedOut po pe =>
            exact Or.inr (Or.inr (Or.inr (Or.inl (by simp [bun_command, h1, hres, h2, hr]))))
          | notFound =>
            exact Or.inr (Or.inr (Or.inr (Or.inr (Or.inl
              (by simp [bun_command, h1, hres, h2, hr])))))
          | otherError m =>
            exact Or.inr (Or.inr (Or.inr (Or.inr (Or.inr ⟨m,
              by simp [bun_command, h1, hres, h2, hr]⟩))))

set_option maxRecDepth 8192 in
/-- Counterexample to C7 as stated: `bun_command` probes the markers
`yarn.lock` and `package-lock.json` (lines 822-824) but the completed
report does not always include them — the combined warning field appears
only when one of them is present, so a probed marker field is missing
from the report of this completed invocation (the second report shows the
same probed field surfacing once the file exists). -/
theorem c7_counterexample :
    (bun_command "install" none 60 wRun0).1 =
      "Command: bun install\nDirectory: /w\nBun version: \nPackage.json present: False\nBun.lockb present: False\nNode_modules present: False\nExit code: 0"
    ∧ ¬ ("package-lock".data <:+: (bun_command "install" none 60 wRun0).1.data)
    ∧ (bun_command "install" none 60 wLock).1 =
      "Command: bun install\nDirectory: /w\nBun version: \nPackage.json present: False\nBun.lockb present: False\nNode_modules present: False\n⚠️ Other lock files detected (yarn.lock/package-lock.json)\nExit code: 0" := by
  refine ⟨by decide, by decide, by decide⟩

/-- C7 amended: every completed report is an instance of the single fixed
field template `specAssemble` — command echo, directory, version when
resolved, the tool's unconditionally reported marker fields in a fixed
order, the exit code, and labelled STDOUT/STDERR sections exactly when the
raw captured stream is non-empty — identical across all five manager
tools, except that `bun_command`'s extra conflicting-lock-file probe
(`yarn.lock` / `package-lock.json`) surfaces only as a conditional warning
line when such a file is present. -/
theorem c7_report_template :
    (∀ (c cwd : String) (rc : Int) (out err : String),
      uv_output_parts c cwd rc out err =
        specAssemble "" ("uv " ++ c) cwd none [] false rc out err)
    ∧ (∀ (c cwd : String) (p : Bool) (rc : Int) (out err : String),
      npm_output_parts c cwd p rc out err =
        specAssemble "" ("npm " ++ c) cwd none [("Package.json", p)] false rc out err)
    ∧ (∀ (c cwd : String) (p nm : Bool) (rc : Int) (out err : String),
      npx_output_parts c cwd p nm rc out err =
        specAssemble "" ("npx " ++ c) cwd none
          [("Package.json", p), ("Node_modules", nm)] false rc out err)
    ∧ (∀ (c cwd v : String) (p yl nm : Bool) (rc : Int) (out err : String),
      yarn_output_parts c cwd v p yl nm rc out err =
        specAssemble "Yarn" (if c = "" then "yarn" else "yarn " ++ c) cwd (some v)
          [("Package.json", p), ("Yarn.lock", yl), ("Node_modules", nm)] false rc out err)
    ∧ (∀ (c cwd v : String) (p bl nm ol : Bool) (rc : Int) (out err : String),
      bun_output_parts c cwd v p bl nm ol rc out err =
        specAssemble "Bun" ("bun " ++ c) cwd (some v)
          [("Package.json", p), ("Bun.lockb", bl), ("Node_modules", nm)] ol rc out err) := by
  refine ⟨?_, ?_, ?_, ?_, ?_⟩
  · intro c cwd rc out err
    rfl
  · intro c cwd p rc out err
    rfl
  · intro c cwd p nm rc out err
    rfl
  · intro c cwd v p yl nm rc out err
    by_cases hc : c = ""
    · subst hc
      rfl
    · simp only [yarn_output_parts, specAssemble, if_neg hc]
      rfl
  · intro c cwd v p bl nm ol rc out err
    rfl

end Breathsmith
